import Mathlib

/-!
Verification of the deployment provisioning module
`webviz_config/_deployment/azure_cli.py` of webviz-config.

The Python module is a thin orchestration shell around external cloud
APIs.  We embed each function shallowly: the external world (responses of
the Azure CLI, of the Microsoft Graph API and of the blob-storage data
plane) is an explicit environment value, and each embedded function
returns the list of externally visible actions it performs together with
its result (a normal return value or a raised Python exception).

Two functions of the module refer to Python names that are bound nowhere
(neither as parameters, locals, module-level names nor builtins), so we
also embed Python's name resolution explicitly: the module-level
namespace is the list of names bound by the module's import statements,
assignments and function definitions, and looking up an unbound name
raises `NameError`.

The helper `_azure_cli` and the Azure SDK exception classes
(`HttpResponseError`, `CloudError`) used by `create_storage_account` are
repository code / imports not present in the packaged source file; they
are modelled from the spec as an external CLI call that either succeeds
or fails with an error message (an `AuthorizationFailed` message marks
the authorization-propagation failure class).
-/

namespace WebvizDeploy

/-- Python exceptions that the embedded functions can raise. -/
inductive PyExc where
  | nameError (missingName : String)
  | runtimeError (msg : String)
  | permissionError (msg : String)
  | keyError (key : String)
  | azureHttpError
  | resourceExistsError
deriving DecidableEq, Repr

/-- `startsWithChars pat l` is true when `pat` is an initial segment of `l`. -/
def startsWithChars : List Char → List Char → Bool
  | [], _ => true
  | _ :: _, [] => false
  | a :: as, b :: bs => a == b && startsWithChars as bs

/-- `hasSubChars pat l` is true when `pat` occurs contiguously inside `l`. -/
def hasSubChars (pat : List Char) : List Char → Bool
  | [] => startsWithChars pat []
  | c :: cs => startsWithChars pat (c :: cs) || hasSubChars pat cs

/-- Embedding of Python's `pat in s` test on strings (substring containment). -/
def strContainsStr (s pat : String) : Bool :=
  hasSubChars pat.toList s.toList

/-!
## Python name resolution for `azure_cli.py`

`pyModuleGlobals` lists every name bound at module level of
`azure_cli.py`: the plain imports, the names imported inside the
`try:`-block (bound when the optional azure dependencies are installed),
the two module constants, the `AZURE_CLI_INSTALLED` flag and every
`def`-bound function name.  `pyBuiltins` lists the Python builtins the
module's code refers to.
-/

def pyModuleGlobals : List String :=
  ["sys", "time", "secrets", "asyncio", "pathlib", "datetime", "warnings",
   "webbrowser", "subprocess", "List", "Dict", "Optional", "Tuple",
   "requests",
   "AzureCliCredential", "SubscriptionClient", "ResourceManagementClient",
   "StorageManagementClient", "BlobServiceClient", "AZURE_CLI_INSTALLED",
   "GRAPH_BASE_URL", "PIMCOMMON_URL",
   "logged_in", "log_in", "_credential", "_subscription_id",
   "_connection_string", "subscriptions", "resource_groups",
   "storage_account_name_available", "storage_account_exists",
   "storage_container_exists", "create_storage_account",
   "get_storage_account_access_key", "create_storage_container",
   "_upload_batch", "storage_container_upload_folder", "_graph_headers",
   "_object_id_from_app_id", "existing_app_registration",
   "create_app_registration", "create_secret", "add_reply_url",
   "create_service_principal", "azure_app_registration_setup"]

def pyBuiltins : List String :=
  ["print", "open", "range", "any", "str", "next", "RuntimeError",
   "ValueError", "NameError", "PermissionError", "Exception",
   "ModuleNotFoundError"]

/-- Parameters and locals of `storage_container_upload_folder`
(`storage_name`, `container_name`, `source_folder` and the loop
variable `_`).  The names `subscription`, `resource_group` and
`AzureHttpError` used in its body are not among them. -/
def uploadFolderLocals : List String :=
  ["storage_name", "container_name", "source_folder", "_"]

/-- Parameters and locals of `storage_account_exists` (`name`,
`subscription`, `resource_group` and `sc`).  The generator-expression
variable `account` lives in the generator's own scope in Python 3 and is
not a local of the enclosing function. -/
def storageAccountExistsLocals : List String :=
  ["name", "subscription", "resource_group", "sc"]

/-- Python name resolution: a name is bound when it is a local of the
current function, a module-level name, or a builtin. -/
def pyBound (locals : List String) (n : String) : Bool :=
  locals.contains n || pyModuleGlobals.contains n || pyBuiltins.contains n

/-!
## `storage_account_exists`

The external world for this function is the two listings the storage
management SDK returns: the names of the accounts in the given resource
group, and the names of all accounts of the subscription.
-/

/-- Responses of the storage-management API used by `storage_account_exists`. -/
structure StorageListEnv where
  groupAccounts : List String
  allAccounts : List String
deriving Repr

/-- Embedding of `storage_account_exists(name, subscription, resource_group)`.

The first `any(...)` checks the per-resource-group listing.  The second
`any(...)` checks the subscription-wide listing; on a hit the function
builds the f-string warning text, which reads the name `account` — the
generator-expression variable, not in scope after the `any(...)` call —
so Python name resolution is consulted before `warnings.warn` can run. -/
def storage_account_exists (name : String) (env : StorageListEnv) :
    Except PyExc Bool :=
  if env.groupAccounts.contains name then
    Except.ok true
  else if env.allAccounts.contains name then
    if pyBound storageAccountExistsLocals "account" then
      Except.ok true
    else
      Except.error (PyExc.nameError "account")
  else
    Except.ok false

/-!
## `storage_container_upload_folder`

Its body is

    for _ in range(5):
        try:
            _upload_batch(subscription, resource_group, storage_name,
                          container_name, source_folder)
            return
        except AzureHttpError:
            pass
        finally:
            print("Waiting on Azure access activation... please wait.")
            time.sleep(60)
    raise RuntimeError("Not able to upload folder to blob storage container.")

Evaluation order of one iteration: the call's arguments are evaluated
left to right (name lookup of `subscription`, then `resource_group`),
then the batch call itself runs; if anything was raised, the `except`
clause evaluates the name `AzureHttpError` (an unbound lookup there
raises a fresh `NameError` that replaces the pending exception); the
`finally` block always prints and sleeps; an uncaught exception then
propagates out of the loop.
-/

/-- Externally visible actions of the upload step. -/
inductive UploadAction where
  | uploadBatchCall
  | printMsg (msg : String)
  | sleep (seconds : Nat)
deriving DecidableEq, Repr

/-- What the `_upload_batch` call would do on a given attempt, had
execution reached it. -/
inductive BatchOutcome where
  | ok
  | azureHttpErr
  | otherErr (e : PyExc)
deriving DecidableEq, Repr

/-- Result of one iteration of the retry loop. -/
inductive AttemptRes where
  | returned
  | caught
  | escaped (e : PyExc)
deriving DecidableEq, Repr

def waitingMsg : String := "Waiting on Azure access activation... please wait."

/-- The `finally` block of the loop body: print, then sleep 60 seconds. -/
def finallyActs : List UploadAction :=
  [UploadAction.printMsg waitingMsg, UploadAction.sleep 60]

/-- The `except AzureHttpError: pass` handler applied to a pending
exception `e`: looking up the unbound handler class name raises
`NameError`; otherwise `AzureHttpError` is caught and passed and
any other exception escapes. -/
def uploadHandler (e : PyExc) : AttemptRes :=
  if pyBound uploadFolderLocals "AzureHttpError" then
    if e = PyExc.azureHttpError then AttemptRes.caught else AttemptRes.escaped e
  else
    AttemptRes.escaped (PyExc.nameError "AzureHttpError")

/-- One iteration of the loop body of `storage_container_upload_folder`
given the outcome `o` the batch call would have on this attempt. -/
def uploadAttempt (o : BatchOutcome) : List UploadAction × AttemptRes :=
  if pyBound uploadFolderLocals "subscription" then
    if pyBound uploadFolderLocals "resource_group" then
      match o with
      | BatchOutcome.ok =>
          (UploadAction.uploadBatchCall :: finallyActs, AttemptRes.returned)
      | BatchOutcome.azureHttpErr =>
          (UploadAction.uploadBatchCall :: finallyActs,
           uploadHandler PyExc.azureHttpError)
      | BatchOutcome.otherErr e =>
          (UploadAction.uploadBatchCall :: finallyActs, uploadHandler e)
    else
      (finallyActs, uploadHandler (PyExc.nameError "resource_group"))
  else
    (finallyActs, uploadHandler (PyExc.nameError "subscription"))

/-- The `for _ in range(5)` loop; `env i` is the outcome the batch call
would have on attempt `i`.  When the loop finishes without returning,
`RuntimeError` is raised. -/
def uploadLoop (env : Nat → BatchOutcome) :
    Nat → Nat → List UploadAction × Option PyExc
  | 0, _ =>
      ([], some (PyExc.runtimeError
        "Not able to upload folder to blob storage container."))
  | n + 1, i =>
      match uploadAttempt (env i) with
      | (acts, AttemptRes.returned) => (acts, none)
      | (acts, AttemptRes.caught) =>
          let nx := uploadLoop env n (i + 1)
          (acts ++ nx.1, nx.2)
      | (acts, AttemptRes.escaped e) => (acts, some e)

/-- Embedding of `storage_container_upload_folder`: runs the retry loop
with at most 5 attempts. -/
def storage_container_upload_folder (env : Nat → BatchOutcome) :
    List UploadAction × Option PyExc :=
  uploadLoop env 5 0

/-!
## `create_storage_account`

The function runs `az storage account create` in an unbounded
`while True:` loop.  Modelled from the spec: `_azure_cli` (repository
code absent from the packaged source) is an external CLI call that
either succeeds or fails with an error message; a message of the
`AuthorizationFailed` class (detected by the source's substring test
`"AuthorizationFailed" in str(exc)`) marks the transient
authorization-propagation failure.  The environment supplies the
outcome of each successive create call; an exhausted outcome list means
the loop is still running (it is unbounded by design).

The function never consults `storage_account_exists`: the environment's
`accountExists` field records whether the named account already exists
in the cloud, and the body ignores it.
-/

/-- Outcome of one external `az storage account create` call. -/
inductive AzResult where
  | ok
  | err (msg : String)
deriving DecidableEq, Repr

/-- Externally visible actions of `create_storage_account`. -/
inductive SAAction where
  | createCall
  | openPim
  | printMsg (msg : String)
  | sleep (seconds : Nat)
  | queryUserAndGroup
  | roleAssignment (role : String)
deriving DecidableEq, Repr

/-- Result of the `while True:` create loop. -/
inductive LoopRes where
  | success
  | fatal (msg : String)
  | pending
deriving DecidableEq, Repr

/-- Result of `create_storage_account` as a whole: the Python function
returns `None` on success. -/
inductive SARes where
  | returnedNone
  | fatal (msg : String)
  | pending
deriving DecidableEq, Repr

def pimStorageMsg : String :=
  "Not able to create new storage account. Do you have enough priviliges to do it? We automatically opened the URL to where you activate Azure PIM. Please activate necessary priviliges. You need to be 'Owner' of the subscription in order to both create the new account and assign user roles to it afterwards."

def newAttemptStorageMsg : String := "New attempt of app registration in 1 minute."

/-- The `while True:` loop of `create_storage_account`.  `pimOpen` is
the `azure_pim_already_open` flag; the list holds the outcome of each
successive create call.  On an `AuthorizationFailed`-class error the
browser is opened (once), the retry message is printed and the loop
sleeps 60 seconds before retrying; on any other error a `RuntimeError`
is raised from the original exception. -/
def create_storage_account_loop : Bool → List AzResult → List SAAction × LoopRes
  | _, [] => ([], LoopRes.pending)
  | pimOpen, r :: rest =>
    match r with
    | AzResult.ok => ([SAAction.createCall], LoopRes.success)
    | AzResult.err m =>
      if strContainsStr m "AuthorizationFailed" then
        let prompt :=
          if pimOpen then []
          else [SAAction.openPim, SAAction.printMsg pimStorageMsg]
        let here := SAAction.createCall ::
          (prompt ++ [SAAction.printMsg newAttemptStorageMsg, SAAction.sleep 60])
        let nx := create_storage_account_loop true rest
        (here ++ nx.1, nx.2)
      else
        ([SAAction.createCall],
         LoopRes.fatal "Not able to create new storage account.")

/-- Environment of `create_storage_account`: whether the named account
already exists (ignored by the body), and the outcomes of the
successive external create calls. -/
structure SAEnv where
  accountExists : Bool
  createResponses : List AzResult
deriving Repr

/-- The statements of `create_storage_account` that follow the create
loop: the signed-in-user and resource-group queries and the two role
assignments. -/
def postSuccessActs : List SAAction :=
  [SAAction.queryUserAndGroup,
   SAAction.roleAssignment "Storage Blob Data Contributor",
   SAAction.roleAssignment "Storage Account Key Operator Service Role"]

/-- Embedding of `create_storage_account(subscription, resource_group, name)`:
the unbounded create loop followed, on success, by the signed-in-user and
resource-group queries and the two role assignments.  Returns `None`. -/
def create_storage_account (env : SAEnv) : List SAAction × SARes :=
  match create_storage_account_loop false env.createResponses with
  | (acts, LoopRes.success) => (acts ++ postSuccessActs, SARes.returnedNone)
  | (acts, LoopRes.fatal m) => (acts, SARes.fatal m)
  | (acts, LoopRes.pending) => (acts, SARes.pending)

/-- `AuthorizationFailed`-class outcome of a create call, per the
source's substring test. -/
def isAuthFailedErr : AzResult → Bool
  | AzResult.ok => false
  | AzResult.err m => strContainsStr m "AuthorizationFailed"

/-!
## `create_storage_container`

`create_storage_container` builds a blob-service client and calls
`create_container()` unconditionally — there is no existence check.
Modelled from the spec: the external data plane rejects creating a
container that already exists (the uncaught SDK error propagates).
-/

inductive ContainerAction where
  | createContainerCall
deriving DecidableEq, Repr

structure ContainerEnv where
  containerExists : Bool
deriving Repr

/-- Embedding of `create_storage_container`: always issues the create
call; the result depends on the external data plane. -/
def create_storage_container (env : ContainerEnv) :
    List ContainerAction × Option PyExc :=
  ([ContainerAction.createContainerCall],
   if env.containerExists then some PyExc.resourceExistsError else none)

/-!
## `existing_app_registration` / `create_app_registration`

The environment holds the Graph responses: the `value` list of the
display-name filter query (a list of appIds), and the response to the
`POST /applications` call.
-/

/-- Response of `POST /v1.0/applications`. -/
inductive GraphPostResp where
  | created (appId : String)
  | errorDenied
  | errorOther (code : String)
deriving DecidableEq, Repr

structure AppRegEnv where
  queryValue : List String
  postResp : GraphPostResp
deriving Repr

inductive AppRegAction where
  | getQuery
  | postCreate
deriving DecidableEq, Repr

/-- Embedding of `existing_app_registration(display_name)`: returns the
first appId of the filter query's `value` list, `None` when empty. -/
def existing_app_registration (env : AppRegEnv) : Option String :=
  env.queryValue.head?

/-- Embedding of `create_app_registration(display_name)`: short-circuits
to the existing appId when the display-name query finds one; otherwise
posts a create; an `Authorization_RequestDenied` error code raises
`PermissionError`; any other error response lacks the `appId` key, so
`data["appId"]` raises `KeyError`. -/
def create_app_registration (env : AppRegEnv) :
    List AppRegAction × Except PyExc String :=
  match existing_app_registration env with
  | some appId => ([AppRegAction.getQuery], Except.ok appId)
  | none =>
    match env.postResp with
    | GraphPostResp.created appId =>
        ([AppRegAction.getQuery, AppRegAction.postCreate], Except.ok appId)
    | GraphPostResp.errorDenied =>
        ([AppRegAction.getQuery, AppRegAction.postCreate],
         Except.error (PyExc.permissionError
           "Insufficient privileges to create new app registration."))
    | GraphPostResp.errorOther _ =>
        ([AppRegAction.getQuery, AppRegAction.postCreate],
         Except.error (PyExc.keyError "appId"))

/-!
## `create_secret`

`create_secret(app_registration_id, secret_description, years=100)`
computes `end_datetime = datetime.datetime.now() +
datetime.timedelta(days=365.242 * years)` and posts an `addPassword`
request carrying the description and that expiry; it returns the
`secretText` of the response.  Time is modelled in days as an exact
rational; `365.242` is the literal `365242/1000`.  Modelled from the
spec: the Graph API generates the secret, returned unchanged.
-/

/-- The `passwordCredential` payload of the `addPassword` request. -/
structure AddPasswordRequest where
  displayName : String
  endDateTimeDays : ℚ
deriving DecidableEq, Repr

/-- Graph responses used by `create_secret`: the object id resolved from
the app id, and the `secretText` the service generates. -/
structure SecretEnv where
  objectId : String
  secretText : String
deriving Repr

def daysPerYear : ℚ := 365242 / 1000

/-- Embedding of `create_secret`.  `nowDays` is `datetime.now()` in days;
`years` defaults to `100` in the source and is passed explicitly here.
Returns the request it posts and the string the function returns. -/
def create_secret (env : SecretEnv) (nowDays : ℚ)
    (secret_description : String) (years : ℕ) :
    AddPasswordRequest × String :=
  ({ displayName := secret_description,
     endDateTimeDays := nowDays + daysPerYear * (years : ℚ) },
   env.secretText)

/-!
## `add_reply_url`

Reads the app's `web` object, appends the reply URL to
`web["redirectUris"]` only when it is not already present, and patches
the `web` object back.
-/

/-- Embedding of `add_reply_url` as the transformation it patches onto
the stored redirect-URI list. -/
def add_reply_url (reply_url : String) (redirectUris : List String) :
    List String :=
  if reply_url ∈ redirectUris then redirectUris
  else redirectUris ++ [reply_url]

/-!
## `azure_app_registration_setup`

The `while True:` loop retries `create_app_registration` plus
`create_service_principal` on `PermissionError`, with its own
`azure_pim_already_open` flag, a 30-second sleep, and no bound.  The
environment gives, per iteration, the combined outcome of the two graph
calls inside the `try:`.
-/

/-- Per-iteration outcome of the `try:` body of the setup loop. -/
inductive SetupResp where
  | ok (appId objectId tenantId : String)
  | permissionDenied
  | otherExc (e : PyExc)
deriving DecidableEq, Repr

inductive SetupAction where
  | attemptCreate
  | openPim
  | printMsg (msg : String)
  | sleep (seconds : Nat)
deriving DecidableEq, Repr

inductive SetupLoopRes where
  | success (appId objectId tenantId : String)
  | raised (e : PyExc)
  | pending
deriving DecidableEq, Repr

def pimAppRegMsg : String :=
  "Not able to create new app registration. Do you have enough priviliges to do it? We automatically opened the URL to where you activate Azure PIM. Please activate necessary priviliges."

def newAttemptAppRegMsg : String := "New attempt of app registration in 30 seconds."

/-- The retry loop of `azure_app_registration_setup`: only
`PermissionError` is caught; the browser is opened (with the console
message) only when `azure_pim_already_open` is still false; every caught
failure prints the retry message and sleeps 30 seconds. -/
def azure_app_registration_setup_loop :
    Bool → List SetupResp → List SetupAction × SetupLoopRes
  | _, [] => ([], SetupLoopRes.pending)
  | pimOpen, r :: rest =>
    match r with
    | SetupResp.ok a o t =>
        ([SetupAction.attemptCreate], SetupLoopRes.success a o t)
    | SetupResp.permissionDenied =>
        let prompt :=
          if pimOpen then []
          else [SetupAction.openPim, SetupAction.printMsg pimAppRegMsg]
        let here := SetupAction.attemptCreate ::
          (prompt ++ [SetupAction.printMsg newAttemptAppRegMsg,
                      SetupAction.sleep 30])
        let nx := azure_app_registration_setup_loop true rest
        (here ++ nx.1, nx.2)
    | SetupResp.otherExc e =>
        ([SetupAction.attemptCreate], SetupLoopRes.raised e)

/-!
## `_upload_batch`

`_upload_batch` lists `source_folder.rglob("*")`, keeps the entries that
are files, and uploads each with blob name
`path.relative_to(source_folder).as_posix()`.  A folder is a list of
entries; `rglobEntries` yields every descendant (files and directories)
with its component path relative to the root, mirroring `rglob("*")`.
Both Python branches (asyncio and sequential) upload the same name set.
-/

/-- A directory tree entry: a file or a sub-directory. -/
inductive FsEntry where
  | file (name : String)
  | dir (name : String) (children : List FsEntry)
deriving Repr

/-- All descendants of a folder, as (relative component path, is_file)
pairs — the embedding of `source_folder.rglob("*")` plus `is_file()`. -/
def rglobEntries (pre : List String) : List FsEntry → List (List String × Bool)
  | [] => []
  | FsEntry.file n :: rest => (pre ++ [n], true) :: rglobEntries pre rest
  | FsEntry.dir n cs :: rest =>
      (pre ++ [n], false) ::
        (rglobEntries (pre ++ [n]) cs ++ rglobEntries pre rest)

/-- Embedding of `path.relative_to(source_folder).as_posix()`:
components joined with `/`. -/
def asPosix (components : List String) : String :=
  String.intercalate "/" components

/-- Embedding of `_upload_batch`'s observable effect: the list of blob
names it uploads — one `upload_blob` per file found by
`rglob("*")`/`is_file()`, named by its POSIX relative path. -/
def uploadBatchBlobNames (folder : List FsEntry) : List String :=
  ((rglobEntries [] folder).filter (fun e => e.2)).map (fun e => asPosix e.1)

/-- The spec's reading: the POSIX relative paths of all files under the
folder, gathered directly by structural recursion over the tree. -/
def allFileRelPaths (pre : List String) : List FsEntry → List (List String)
  | [] => []
  | FsEntry.file n :: rest => (pre ++ [n]) :: allFileRelPaths pre rest
  | FsEntry.dir n cs :: rest =>
      allFileRelPaths (pre ++ [n]) cs ++ allFileRelPaths pre rest

/-!
## Helper lemmas
-/

/-- Filtering the files out of the `rglob("*")` listing yields exactly the
relative paths of all files under the folder. -/
theorem rglob_filter_files :
    ∀ (pre : List String) (ts : List FsEntry),
      ((rglobEntries pre ts).filter (fun e => e.2)).map (fun e => e.1) =
        allFileRelPaths pre ts
  | _, [] => by simp [rglobEntries, allFileRelPaths]
  | pre, FsEntry.file n :: rest => by
      simp [rglobEntries, allFileRelPaths, List.filter_cons,
            rglob_filter_files pre rest]
  | pre, FsEntry.dir n cs :: rest => by
      simp [rglobEntries, allFileRelPaths, List.filter_cons,
            List.filter_append, List.map_append,
            rglob_filter_files (pre ++ [n]) cs, rglob_filter_files pre rest]

/-!
## Claim theorems
-/

/-- Claim C5: a single upload batch uploads exactly the files found under
the source folder (one upload per file), and the list — hence the set —
of remote blob names it produces equals the POSIX-style relative paths
of those files with respect to the source folder. -/
theorem upload_batch_blob_name_set (folder : List FsEntry) :
    uploadBatchBlobNames folder = (allFileRelPaths [] folder).map asPosix ∧
    (uploadBatchBlobNames folder).length = (allFileRelPaths [] folder).length ∧
    ∀ b, b ∈ uploadBatchBlobNames folder ↔
      b ∈ (allFileRelPaths [] folder).map asPosix := by
  have h1 : uploadBatchBlobNames folder =
      (allFileRelPaths [] folder).map asPosix := by
    unfold uploadBatchBlobNames
    rw [← rglob_filter_files [] folder, List.map_map]
    rfl
  refine ⟨h1, ?_, fun b => by rw [h1]⟩
  rw [h1, List.length_map]

/-- Claim C6: `add_reply_url` is idempotent — adding the same URL twice
equals adding it once; starting from a stored list holding the URL at
most once, two calls leave it stored exactly once; a URL already present
is never appended again. -/
theorem add_reply_url_idempotent (reply_url : String) (uris : List String) :
    add_reply_url reply_url (add_reply_url reply_url uris) =
      add_reply_url reply_url uris ∧
    (uris.count reply_url ≤ 1 →
      (add_reply_url reply_url (add_reply_url reply_url uris)).count reply_url
        = 1) ∧
    (reply_url ∈ uris → add_reply_url reply_url uris = uris) := by
  by_cases h : reply_url ∈ uris
  · have he : add_reply_url reply_url uris = uris := by
      simp [add_reply_url, h]
    refine ⟨by rw [he, he], fun hc => ?_, fun _ => he⟩
    rw [he, he]
    have hp : 0 < uris.count reply_url := List.count_pos_iff.mpr h
    omega
  · have he : add_reply_url reply_url uris = uris ++ [reply_url] := by
      simp [add_reply_url, h]
    have hm : reply_url ∈ uris ++ [reply_url] := by simp
    have he2 : add_reply_url reply_url (uris ++ [reply_url]) =
        uris ++ [reply_url] := by
      simp [add_reply_url, hm]
    have hc0 : uris.count reply_url = 0 := List.count_eq_zero.mpr h
    refine ⟨by rw [he, he2], fun _ => ?_, fun hmem => absurd hmem h⟩
    rw [he, he2, List.count_append, hc0]
    simp

/-- Witness for C6 at a concrete URL and stored list. -/
theorem add_reply_url_idempotent_witness :
    (["https://example.com/oauth2/callback"].count
        "https://example.com/oauth2/callback" ≤ 1) ∧
    ((add_reply_url "https://example.com/oauth2/callback"
        (add_reply_url "https://example.com/oauth2/callback"
          ["https://example.com/oauth2/callback"])).count
        "https://example.com/oauth2/callback" = 1) ∧
    ("https://example.com/oauth2/callback" ∈
        ["https://example.com/oauth2/callback"]) ∧
    (add_reply_url "https://example.com/oauth2/callback"
        ["https://example.com/oauth2/callback"] =
      ["https://example.com/oauth2/callback"]) :=
  ⟨by decide,
   (add_reply_url_idempotent "https://example.com/oauth2/callback"
      ["https://example.com/oauth2/callback"]).2.1 (by decide),
   by decide,
   (add_reply_url_idempotent "https://example.com/oauth2/callback"
      ["https://example.com/oauth2/callback"]).2.2 (by decide)⟩

/-- Claim C8: `create_secret(app_id, "cli secret", years=100)` requests an
expiry of exactly now plus `100 * 365.242` days (so certainly within any
small tolerance), and returns the service's `secretText` unchanged —
non-empty whenever the service returns a non-empty secret. -/
theorem create_secret_expiry (env : SecretEnv) (nowDays : ℚ) :
    (create_secret env nowDays "cli secret" 100).1.endDateTimeDays =
      nowDays + 100 * (365242 / 1000 : ℚ) ∧
    (create_secret env nowDays "cli secret" 100).2 = env.secretText ∧
    (env.secretText ≠ "" → (create_secret env nowDays "cli secret" 100).2 ≠ "") := by
  refine ⟨?_, rfl, fun h => h⟩
  show nowDays + daysPerYear * ((100 : ℕ) : ℚ) = nowDays + 100 * (365242 / 1000 : ℚ)
  rw [daysPerYear]
  norm_num

/-- Witness for C8 at a concrete environment and time origin. -/
theorem create_secret_expiry_witness :
    (({ objectId := "oid", secretText := "s3cr3t" } : SecretEnv).secretText ≠ "") ∧
    ((create_secret { objectId := "oid", secretText := "s3cr3t" } 0
        "cli secret" 100).2 ≠ "") ∧
    ((create_secret { objectId := "oid", secretText := "s3cr3t" } 0
        "cli secret" 100).1.endDateTimeDays = 0 + 100 * (365242 / 1000 : ℚ)) :=
  ⟨by decide,
   (create_secret_expiry { objectId := "oid", secretText := "s3cr3t" } 0).2.2
     (by decide),
   (create_secret_expiry { objectId := "oid", secretText := "s3cr3t" } 0).1⟩

/-- Claim C9: the body of `storage_container_upload_folder` refers to the
names `subscription`, `resource_group` and `AzureHttpError`, none of which
is bound as a parameter, local, module-level name or builtin, so every
invocation performs no upload and raises a `NameError` on its first
attempt, after the 60-second wait of the `finally` block. -/
theorem upload_folder_always_nameerror :
    pyBound uploadFolderLocals "subscription" = false ∧
    pyBound uploadFolderLocals "resource_group" = false ∧
    pyBound uploadFolderLocals "AzureHttpError" = false ∧
    ∀ env : Nat → BatchOutcome,
      storage_container_upload_folder env =
        ([UploadAction.printMsg waitingMsg, UploadAction.sleep 60],
         some (PyExc.nameError "AzureHttpError")) ∧
      (storage_container_upload_folder env).1.count
        UploadAction.uploadBatchCall = 0 ∧
      (storage_container_upload_folder env).1.count (UploadAction.sleep 60) = 1 :=
  ⟨by decide, by decide, by decide, fun env => ⟨rfl, rfl, rfl⟩⟩

/-- Claim C10: when the queried name is absent from the given resource
group but present in the subscription-wide listing,
`storage_account_exists` raises `NameError` (the warning's f-string reads
the out-of-scope generator variable `account`) instead of warning and
returning `True`. -/
theorem storage_account_exists_other_group_nameerror :
    pyBound storageAccountExistsLocals "account" = false ∧
    ∀ (name : String) (env : StorageListEnv),
      env.groupAccounts.contains name = false →
      env.allAccounts.contains name = true →
      storage_account_exists name env =
        Except.error (PyExc.nameError "account") := by
  refine ⟨by decide, fun name env h1 h2 => ?_⟩
  have hb : pyBound storageAccountExistsLocals "account" = false := by decide
  have h1m : name ∉ env.groupAccounts := by simpa using h1
  have h2m : name ∈ env.allAccounts := by simpa using h2
  simp [storage_account_exists, h1m, h2m, hb]

/-- Witness for C10: the account exists only in another resource group. -/
theorem storage_account_exists_other_group_nameerror_witness :
    (({ groupAccounts := ["other"], allAccounts := ["store1"] } :
        StorageListEnv).groupAccounts.contains "store1" = false) ∧
    (({ groupAccounts := ["other"], allAccounts := ["store1"] } :
        StorageListEnv).allAccounts.contains "store1" = true) ∧
    storage_account_exists "store1"
        { groupAccounts := ["other"], allAccounts := ["store1"] } =
      Except.error (PyExc.nameError "account") :=
  ⟨by decide, by decide,
   storage_account_exists_other_group_nameerror.2 "store1"
     { groupAccounts := ["other"], allAccounts := ["store1"] }
     (by decide) (by decide)⟩

/-!
## Loop lemmas
-/

/-- `create_storage_account` is the create loop's trace, extended with the
post-loop statements on success, and the loop's result mapped to the
function's result. -/
theorem create_storage_account_eq (env : SAEnv) :
    create_storage_account env =
      ((create_storage_account_loop false env.createResponses).1 ++
        (match (create_storage_account_loop false env.createResponses).2 with
         | LoopRes.success => postSuccessActs
         | LoopRes.fatal _ => []
         | LoopRes.pending => []),
       (match (create_storage_account_loop false env.createResponses).2 with
        | LoopRes.success => SARes.returnedNone
        | LoopRes.fatal m => SARes.fatal m
        | LoopRes.pending => SARes.pending)) := by
  unfold create_storage_account
  rcases create_storage_account_loop false env.createResponses with ⟨acts, res⟩
  cases res <;> simp

/-- The `azure_pim_already_open` flag lets the storage-account loop open
the privilege-elevation page at most once (never once it is set). -/
theorem sa_loop_openPim_le (rs : List AzResult) :
    ∀ pimOpen : Bool,
      (create_storage_account_loop pimOpen rs).1.count SAAction.openPim ≤
        (if pimOpen then 0 else 1) := by
  induction rs with
  | nil =>
      intro pimOpen
      cases pimOpen <;> simp [create_storage_account_loop]
  | cons r rest ih =>
      intro pimOpen
      cases r with
      | ok => cases pimOpen <;> simp [create_storage_account_loop]
      | err m =>
          have h2 := ih true
          simp only [if_pos] at h2
          clear ih
          cases hm : strContainsStr m "AuthorizationFailed" <;> cases pimOpen <;>
            simp [create_storage_account_loop, hm, List.count_append,
              List.count_cons] <;> omega

/-- On a run where every create call fails with an
`AuthorizationFailed`-class error, the loop never terminates: it stays
pending, with one create call and one 60-second sleep per response. -/
theorem sa_loop_all_auth (rs : List AzResult) :
    ∀ pimOpen : Bool, (∀ r ∈ rs, isAuthFailedErr r = true) →
      (create_storage_account_loop pimOpen rs).2 = LoopRes.pending ∧
      (create_storage_account_loop pimOpen rs).1.count (SAAction.sleep 60) =
        rs.length ∧
      (create_storage_account_loop pimOpen rs).1.count SAAction.createCall =
        rs.length := by
  induction rs with
  | nil => intro pimOpen _; simp [create_storage_account_loop]
  | cons r rest ih =>
      intro pimOpen hall
      have hr : isAuthFailedErr r = true := hall r (List.mem_cons_self r rest)
      have hrest : ∀ x ∈ rest, isAuthFailedErr x = true :=
        fun x hx => hall x (List.mem_cons_of_mem r hx)
      have h2 := ih true hrest
      clear ih
      cases r with
      | ok => simp [isAuthFailedErr] at hr
      | err m =>
          have hm : strContainsStr m "AuthorizationFailed" = true := hr
          cases pimOpen <;>
            simp [create_storage_account_loop, hm, List.count_append,
              List.count_cons, h2.1, h2.2.1, h2.2.2]

/-- A create failure outside the `AuthorizationFailed` class terminates
the loop at once with the wrapped fatal error. -/
theorem sa_loop_fatal (m : String) (rest : List AzResult) (pimOpen : Bool)
    (h : strContainsStr m "AuthorizationFailed" = false) :
    create_storage_account_loop pimOpen (AzResult.err m :: rest) =
      ([SAAction.createCall],
       LoopRes.fatal "Not able to create new storage account.") := by
  simp [create_storage_account_loop, h]

/-- The trace of a loop run over a non-empty response list starts with
the create call itself: no other external action precedes it. -/
theorem sa_loop_head (pimOpen : Bool) (r : AzResult) (rest : List AzResult) :
    (create_storage_account_loop pimOpen (r :: rest)).1.head? =
      some SAAction.createCall := by
  cases r with
  | ok => rfl
  | err m =>
      cases hm : strContainsStr m "AuthorizationFailed" <;>
        simp [create_storage_account_loop, hm]

/-- The app-registration setup loop's `azure_pim_already_open` flag also
bounds its browser prompt by one. -/
theorem setup_loop_openPim_le (rs : List SetupResp) :
    ∀ pimOpen : Bool,
      (azure_app_registration_setup_loop pimOpen rs).1.count
          SetupAction.openPim ≤ (if pimOpen then 0 else 1) := by
  induction rs with
  | nil =>
      intro pimOpen
      cases pimOpen <;> simp [azure_app_registration_setup_loop]
  | cons r rest ih =>
      intro pimOpen
      have h2 := ih true
      simp only [if_pos] at h2
      clear ih
      cases r with
      | ok a o t => cases pimOpen <;> simp [azure_app_registration_setup_loop]
      | permissionDenied =>
          cases pimOpen <;>
            simp [azure_app_registration_setup_loop, List.count_append,
              List.count_cons] <;> omega
      | otherExc e =>
          cases pimOpen <;> simp [azure_app_registration_setup_loop]

/-- Claim C1 (counterexample): against an already-satisfied state (the
storage account exists; the container exists) `create_storage_account`
and `create_storage_container` still issue their create calls — the
claimed existence check and short-circuit do not happen for these two
resource kinds. -/
theorem create_ops_skip_create_cex :
    (({ accountExists := true, createResponses := [AzResult.ok] } :
        SAEnv).accountExists = true) ∧
    ((create_storage_account
        { accountExists := true, createResponses := [AzResult.ok] }).1.count
        SAAction.createCall = 1) ∧
    (({ containerExists := true } : ContainerEnv).containerExists = true) ∧
    ((create_storage_container { containerExists := true }).1.count
        ContainerAction.createContainerCall = 1) := by
  refine ⟨rfl, ?_, rfl, rfl⟩
  decide

/-- Claim C1 (amended): only `create_app_registration` checks existence
first and short-circuits to the existing appId without a create request;
`create_storage_account` and `create_storage_container` behave
identically whether or not the resource exists and, on a non-empty run,
issue the create call as their first external action. -/
theorem create_ops_existence_check_amended :
    (∀ (b1 b2 : Bool) (rs : List AzResult),
      create_storage_account { accountExists := b1, createResponses := rs } =
        create_storage_account { accountExists := b2, createResponses := rs }) ∧
    (∀ (b : Bool) (r : AzResult) (rest : List AzResult),
      (create_storage_account
          { accountExists := b, createResponses := r :: rest }).1.head? =
        some SAAction.createCall) ∧
    (∀ b1 b2 : Bool,
      (create_storage_container { containerExists := b1 }).1 =
        [ContainerAction.createContainerCall] ∧
      (create_storage_container { containerExists := b1 }).1 =
        (create_storage_container { containerExists := b2 }).1) ∧
    (∀ (env : AppRegEnv) (appId : String) (rest : List String),
      env.queryValue = appId :: rest →
      create_app_registration env =
        ([AppRegAction.getQuery], Except.ok appId)) := by
  refine ⟨fun b1 b2 rs => rfl, ?_, fun b1 b2 => ⟨rfl, rfl⟩, ?_⟩
  · intro b r rest
    rw [create_storage_account_eq]
    simp only [List.head?_append, sa_loop_head]
    cases h : (create_storage_account_loop false
        ({ accountExists := b, createResponses := r :: rest } :
          SAEnv).createResponses).2 <;> simp [sa_loop_head]
  · intro env appId rest h
    simp [create_app_registration, existing_app_registration, h]

/-- Witness for amended C1: an existing app registration is returned
without a create request, and the storage-account run is independent of
the existence flag. -/
theorem create_ops_existence_check_amended_witness :
    (({ queryValue := ["app-123"], postResp := GraphPostResp.created "new" } :
        AppRegEnv).queryValue = "app-123" :: []) ∧
    (create_app_registration
        { queryValue := ["app-123"], postResp := GraphPostResp.created "new" } =
      ([AppRegAction.getQuery], Except.ok "app-123")) ∧
    (create_storage_account
        { accountExists := true, createResponses := [AzResult.ok] } =
      create_storage_account
        { accountExists := false, createResponses := [AzResult.ok] }) :=
  ⟨rfl,
   create_ops_existence_check_amended.2.2.2
     { queryValue := ["app-123"], postResp := GraphPostResp.created "new" }
     "app-123" [] rfl,
   create_ops_existence_check_amended.1 true false [AzResult.ok]⟩

/-- Claim C2 (code divergence): even when every batch attempt would fail
with the transient Azure HTTP error, `storage_container_upload_folder`
makes only one attempt — it ends in a `NameError` after the single
60-second wait instead of retrying 5 times and raising the fatal
`RuntimeError`. -/
theorem upload_folder_retry_bound_divergence :
    storage_container_upload_folder (fun _ => BatchOutcome.azureHttpErr) =
      ([UploadAction.printMsg waitingMsg, UploadAction.sleep 60],
       some (PyExc.nameError "AzureHttpError")) ∧
    ((storage_container_upload_folder
        (fun _ => BatchOutcome.azureHttpErr)).1.count (UploadAction.sleep 60)
      = 1) ∧
    ((storage_container_upload_folder
        (fun _ => BatchOutcome.azureHttpErr)).2 ≠
      some (PyExc.runtimeError
        "Not able to upload folder to blob storage container.")) := by
  refine ⟨rfl, rfl, ?_⟩
  decide

/-- Claim C3: in `create_storage_account`, `AuthorizationFailed`-class
create failures are retried without bound — a run of nothing but such
failures, of any length, is still pending, with one 60-second sleep per
attempt and the elevation page opened at most once — while the first
failure of any other class raises the wrapped fatal `RuntimeError`
immediately. -/
theorem create_storage_account_error_handling (env : SAEnv) :
    ((∀ r ∈ env.createResponses, isAuthFailedErr r = true) →
      (create_storage_account env).2 = SARes.pending ∧
      (create_storage_account env).1.count (SAAction.sleep 60) =
        env.createResponses.length ∧
      (create_storage_account env).1.count SAAction.createCall =
        env.createResponses.length ∧
      (create_storage_account env).1.count SAAction.openPim ≤ 1) ∧
    (∀ (m : String) (rest : List AzResult),
      strContainsStr m "AuthorizationFailed" = false →
      env.createResponses = AzResult.err m :: rest →
      create_storage_account env =
        ([SAAction.createCall],
         SARes.fatal "Not able to create new storage account.")) := by
  constructor
  · intro hall
    have h := sa_loop_all_auth env.createResponses false hall
    have hb := sa_loop_openPim_le env.createResponses false
    simp only [Bool.false_eq_true, if_false] at hb
    rw [create_storage_account_eq env, h.1]
    refine ⟨rfl, ?_, ?_, ?_⟩
    · simpa using h.2.1
    · simpa using h.2.2
    · simpa using hb
  · intro m rest hm hrs
    rw [create_storage_account_eq env, hrs, sa_loop_fatal m rest false hm]
    simp

/-- Witness for C3: two authorization failures keep the run pending with
two sleeps; a different failure is fatal at once. -/
theorem create_storage_account_error_handling_witness :
    ((create_storage_account
        { accountExists := false,
          createResponses := [AzResult.err "AuthorizationFailed for scope",
            AzResult.err "AuthorizationFailed again"] }).2 = SARes.pending ∧
      (create_storage_account
        { accountExists := false,
          createResponses := [AzResult.err "AuthorizationFailed for scope",
            AzResult.err "AuthorizationFailed again"] }).1.count
          (SAAction.sleep 60) = 2 ∧
      (create_storage_account
        { accountExists := false,
          createResponses := [AzResult.err "AuthorizationFailed for scope",
            AzResult.err "AuthorizationFailed again"] }).1.count
          SAAction.createCall = 2 ∧
      (create_storage_account
        { accountExists := false,
          createResponses := [AzResult.err "AuthorizationFailed for scope",
            AzResult.err "AuthorizationFailed again"] }).1.count
          SAAction.openPim ≤ 1) ∧
    (create_storage_account
        { accountExists := false,
          createResponses := [AzResult.err "The client does not have permission"] } =
      ([SAAction.createCall],
       SARes.fatal "Not able to create new storage account.")) :=
  ⟨(create_storage_account_error_handling
      { accountExists := false,
        createResponses := [AzResult.err "AuthorizationFailed for scope",
          AzResult.err "AuthorizationFailed again"] }).1 (by decide),
   (create_storage_account_error_handling
      { accountExists := false,
        createResponses :=
          [AzResult.err "The client does not have permission"] }).2
     "The client does not have permission" [] (by decide) rfl⟩

/-- Claim C4 (counterexample): a second invocation of
`create_storage_account` against the already-created account re-issues
the create call, and when the external API rejects the duplicate create
(here with a `StorageAccountAlreadyTaken` error, not an authorization
failure) the second call raises the fatal `RuntimeError` — so two
successive invocations are not guaranteed free of errors; nor does any
call yield an account identifier (the function returns `None`). -/
theorem ensure_storage_account_idem_cex :
    (({ accountExists := true,
        createResponses := [AzResult.err "StorageAccountAlreadyTaken"] } :
        SAEnv).accountExists = true) ∧
    (create_storage_account
        { accountExists := true,
          createResponses := [AzResult.err "StorageAccountAlreadyTaken"] } =
      ([SAAction.createCall],
       SARes.fatal "Not able to create new storage account.")) := by
  refine ⟨rfl, ?_⟩
  decide

/-- Claim C4 (amended): `create_storage_account` returns no identifier —
both calls return `None`, trivially equal — and a second invocation does
not raise provided its own external create call succeeds again, while it
still issues exactly one fresh create call (no short-circuit). -/
theorem ensure_storage_account_idem_amended (e1 e2 : SAEnv)
    (h1 : e1.createResponses.head? = some AzResult.ok)
    (h2 : e2.createResponses.head? = some AzResult.ok) :
    (create_storage_account e1).2 = SARes.returnedNone ∧
    (create_storage_account e2).2 = SARes.returnedNone ∧
    (create_storage_account e1).2 = (create_storage_account e2).2 ∧
    (create_storage_account e2).1.count SAAction.createCall = 1 := by
  have key : ∀ e : SAEnv, e.createResponses.head? = some AzResult.ok →
      (create_storage_account e).2 = SARes.returnedNone ∧
      (create_storage_account e).1.count SAAction.createCall = 1 := by
    intro e he
    rcases henv : e.createResponses with _ | ⟨r, tail⟩
    · rw [henv] at he; cases he
    · rw [henv] at he
      have hr : r = AzResult.ok := by simpa using he
      subst hr
      rw [create_storage_account_eq e, henv]
      constructor
      · rfl
      · simp [create_storage_account_loop, postSuccessActs, List.count_append,
          List.count_cons]
  have k1 := key e1 h1
  have k2 := key e2 h2
  exact ⟨k1.1, k2.1, by rw [k1.1, k2.1], k2.2⟩

/-- Witness for amended C4 at two concrete environments standing for the
first and second invocation. -/
theorem ensure_storage_account_idem_amended_witness :
    (({ accountExists := false, createResponses := [AzResult.ok] } :
        SAEnv).createResponses.head? = some AzResult.ok) ∧
    (({ accountExists := true,
        createResponses := [AzResult.ok, AzResult.err "unused"] } :
        SAEnv).createResponses.head? = some AzResult.ok) ∧
    ((create_storage_account
        { accountExists := false, createResponses := [AzResult.ok] }).2 =
      SARes.returnedNone) ∧
    ((create_storage_account
        { accountExists := true,
          createResponses := [AzResult.ok, AzResult.err "unused"] }).2 =
      SARes.returnedNone) ∧
    ((create_storage_account
        { accountExists := true,
          createResponses := [AzResult.ok, AzResult.err "unused"] }).1.count
        SAAction.createCall = 1) :=
  ⟨rfl, rfl,
   (ensure_storage_account_idem_amended
      { accountExists := false, createResponses := [AzResult.ok] }
      { accountExists := true,
        createResponses := [AzResult.ok, AzResult.err "unused"] }
      rfl rfl).1,
   (ensure_storage_account_idem_amended
      { accountExists := false, createResponses := [AzResult.ok] }
      { accountExists := true,
        createResponses := [AzResult.ok, AzResult.err "unused"] }
      rfl rfl).2.1,
   (ensure_storage_account_idem_amended
      { accountExists := false, createResponses := [AzResult.ok] }
      { accountExists := true,
        createResponses := [AzResult.ok, AzResult.err "unused"] }
      rfl rfl).2.2.2⟩

/-- Claim C7: on any run, however many retry iterations the loops make,
the interactive remediation prompt is opened at most once per failure
class — in the storage-account creation loop and in the app-registration
setup loop alike. -/
theorem remediation_prompt_at_most_once (env : SAEnv) (rs : List SetupResp) :
    (create_storage_account env).1.count SAAction.openPim ≤ 1 ∧
    (azure_app_registration_setup_loop false rs).1.count
      SetupAction.openPim ≤ 1 := by
  constructor
  · have hb := sa_loop_openPim_le env.createResponses false
    simp only [Bool.false_eq_true, if_false] at hb
    rw [create_storage_account_eq env]
    cases h : (create_storage_account_loop false env.createResponses).2 <;>
      simp [h, List.count_append, postSuccessActs, List.count_cons] <;> omega
  · have hb := setup_loop_openPim_le rs false
    simpa using hb

end WebvizDeploy
